import Mathlib

/-!
# A verification development for the sinabs tutorial material

This file gives a shallow embedding of the Python code contained in the
repository's tutorial notebooks (`docs/tutorials/weight_transfer_mnist.ipynb`,
`docs/tutorials/LeNet_5_EngChinese.ipynb`, the synops tutorial notebook) and
of the CI workflow configuration, together with theorems about the embedded
definitions.

Conventions of the embedding:
* machine floats that only ever hold exact small values (pixel intensities,
  spike counts, accuracies) are modelled as rationals `ℚ`;
* a torch tensor is modelled either by its index functions over `Fin`-types
  (when the shape matters) or by the list of its slices along the one
  dimension an operation acts on;
* Python code that can raise is modelled with `Except String`;
* the execution of a notebook is modelled as the list of its observable
  top-level operations in source order.
-/

namespace Sinabs

/-! ## The custom `MNIST` dataset of `weight_transfer_mnist.ipynb`

```python
class MNIST(datasets.MNIST):
    def __init__(self, root, train=True, is_spiking=False, time_window=100):
        super().__init__(root=root, train=train, download=True,
                         transform=transforms.ToTensor())
        self.is_spiking = is_spiking
        self.time_window = time_window

    def __getitem__(self, index):
        img, target = self.data[index].unsqueeze(0) / 255, self.targets[index]
        # img is now a tensor of 1x28x28
        if self.is_spiking:
            img = (torch.rand(self.time_window, *img.shape) < img).float()
        return img, target
```
-/

/-- An MNIST image as stored in `self.data`: a 28×28 grid of 8-bit gray
levels (`torch.uint8` values, hence natural numbers `≤ 255`). -/
abbrev GrayImage : Type := Fin 28 → Fin 28 → ℕ

/-- The state of an instance of the custom `MNIST` dataset: the inherited
`data` and `targets` tensors of `datasets.MNIST` (indexed by the sample
index) and the two attributes assigned in `__init__`. -/
structure MNISTDataset where
  data : ℕ → GrayImage
  targets : ℕ → ℕ
  is_spiking : Bool
  time_window : ℕ

/-- `img = self.data[index].unsqueeze(0) / 255`: the 1×28×28 image of
rationals obtained by dividing each 8-bit gray level by `255`. -/
def mnistImg (ds : MNISTDataset) (index : ℕ) : Fin 1 → Fin 28 → Fin 28 → ℚ :=
  fun _ i j => (ds.data index i j : ℚ) / 255

/-- `img = (torch.rand(self.time_window, *img.shape) < img).float()`:
`rand` stands for the tensor returned by `torch.rand`, of shape
`(time_window, 1, 28, 28)`, whose entries lie in `[0, 1)`; the 1×28×28
image is broadcast against it along the leading time axis, and the boolean
comparison result is cast to float (`1.0` for true, `0.0` for false). -/
def mnistRaster (ds : MNISTDataset) (index : ℕ)
    (rand : Fin ds.time_window → Fin 1 → Fin 28 → Fin 28 → ℚ) :
    Fin ds.time_window → Fin 1 → Fin 28 → Fin 28 → ℚ :=
  fun t c i j => if rand t c i j < mnistImg ds index c i j then 1 else 0

/-- The first component of the pair returned by `MNIST.__getitem__`: either
the 1×28×28 image (non-spiking mode) or the `time_window`×1×28×28 spike
raster (spiking mode).  The tensor shape is carried by the index types. -/
inductive MNISTItem (T : ℕ) where
  | image (img : Fin 1 → Fin 28 → Fin 28 → ℚ)
  | raster (r : Fin T → Fin 1 → Fin 28 → Fin 28 → ℚ)

/-- `MNIST.__getitem__`: returns the pair `(img, target)`, where `img` is
replaced by the spike raster when `self.is_spiking` holds. -/
def mnistGetitem (ds : MNISTDataset) (index : ℕ)
    (rand : Fin ds.time_window → Fin 1 → Fin 28 → Fin 28 → ℚ) :
    MNISTItem ds.time_window × ℕ :=
  if ds.is_spiking then
    (MNISTItem.raster (mnistRaster ds index rand), ds.targets index)
  else
    (MNISTItem.image (mnistImg ds index), ds.targets index)

/-! ## The `SNN` class of the synops tutorial notebook

```python
class SNN(nn.Sequential):
    def __init__(self, batch_size):
        super().__init__(
            sl.FlattenTime(),
            nn.Conv2d(1, 16, 5, bias=False),
            sl.IAFSqueeze(batch_size=batch_size),
            nn.AvgPool2d(2),
            nn.Conv2d(16, 32, 5, bias=False),
            sl.IAFSqueeze(batch_size=batch_size),
            nn.AvgPool2d(2),
            nn.Conv2d(32, 120, 4, bias=False),
            sl.IAFSqueeze(batch_size=batch_size),
            nn.Flatten(),
            nn.Linear(120, 10, bias=False),
            sl.IAFSqueeze(batch_size=batch_size),
            sl.UnflattenTime(batch_size=batch_size),
        )

    @property
    def spiking_layers(self):
        return [layer for layer in self.net.children()
                if isinstance(layer, sl.StatefulLayer)]

    def reset_states(self):
        for layer in self.spiking_layers:
            layer.reset_states()
```
-/

/-- The layer objects appearing in the synops tutorial's `SNN`. -/
inductive PyLayer where
  | flattenTime
  | conv2d (inChannels outChannels kernelSize : ℕ)
  | iafSqueeze (batchSize : ℕ)
  | avgPool2d (kernelSize : ℕ)
  | flattenLayer
  | linearLayer (inFeatures outFeatures : ℕ)
  | unflattenTime (batchSize : ℕ)
deriving DecidableEq

/-- `isinstance(layer, sl.StatefulLayer)`: of the layer classes used in the
tutorial, only `sl.IAFSqueeze` derives from `sl.StatefulLayer`. -/
def isStatefulLayer : PyLayer → Bool
  | PyLayer.iafSqueeze _ => true
  | _ => false

/-- The attribute dictionary of an `SNN(batch_size=batchSize)` instance.
`nn.Sequential.__init__` registers its positional submodules under the
stringified indices `"0"` … `"12"`; `SNN.__init__` assigns no further
instance attribute, so these thirteen names are the only attributes of
the instance (in particular there is none named `"net"`). -/
def snnInstanceModules (batchSize : ℕ) : List (String × PyLayer) :=
  [("0", PyLayer.flattenTime),
   ("1", PyLayer.conv2d 1 16 5),
   ("2", PyLayer.iafSqueeze batchSize),
   ("3", PyLayer.avgPool2d 2),
   ("4", PyLayer.conv2d 16 32 5),
   ("5", PyLayer.iafSqueeze batchSize),
   ("6", PyLayer.avgPool2d 2),
   ("7", PyLayer.conv2d 32 120 4),
   ("8", PyLayer.iafSqueeze batchSize),
   ("9", PyLayer.flattenLayer),
   ("10", PyLayer.linearLayer 120 10),
   ("11", PyLayer.iafSqueeze batchSize),
   ("12", PyLayer.unflattenTime batchSize)]

/-- Attribute lookup on the instance: Python resolves `self.net` through the
instance and module attribute dictionaries and raises `AttributeError` when
the name is bound in none of them (`nn.Module.__getattr__` re-raises after
searching `_parameters`, `_buffers` and `_modules`). -/
def moduleGetattr (attrs : List (String × PyLayer)) (name : String) :
    Option PyLayer :=
  attrs.lookup name

/-- `m.children()` for an attribute value: every attribute of the instance
is a leaf layer (none of the values is a container module), so the child
list of any looked-up value is empty. -/
def layerChildren : PyLayer → List PyLayer := fun _ => []

/-- The `spiking_layers` property body:
`[layer for layer in self.net.children() if isinstance(layer, sl.StatefulLayer)]`.
Evaluating `self.net` raises `AttributeError` when the name `"net"` is not an
attribute of the instance; otherwise the comprehension filters the children. -/
def snn_spiking_layers (batchSize : ℕ) : Except String (List PyLayer) :=
  match moduleGetattr (snnInstanceModules batchSize) "net" with
  | none => Except.error "AttributeError"
  | some m => Except.ok ((layerChildren m).filter isStatefulLayer)

/-- `reset_states`: iterates over `self.spiking_layers`, so it propagates
any exception raised while evaluating the property. -/
def snn_reset_states (batchSize : ℕ) : Except String Unit :=
  match snn_spiking_layers batchSize with
  | Except.error e => Except.error e
  | Except.ok _ => Except.ok ()

/-! ## The CI workflow (`name: CI`, `on: [push, pull_request]`)

Transcribed from the workflow YAML file: three jobs `multitest`,
`documentation`, `build-and-publish`; `multitest` has a build matrix, the
other two depend on their predecessor through `needs`. -/

/-- What a workflow step does: check out the repository, set up a Python
interpreter, run a named shell script, or invoke the PyPI publish action. -/
inductive StepAction where
  | checkout (version : ℕ)
  | setupPython (pythonVersion : String)
  | runScript (name : String) (commands : List String)
  | publishPyPI (skipExisting : Bool)
deriving DecidableEq

/-- A workflow step.  `continue-on-error` appears nowhere in the YAML file,
so it takes its GitHub default `false` for every step. -/
structure WorkflowStep where
  action : StepAction
  continueOnError : Bool
deriving DecidableEq

/-- The `strategy:` block of a job. -/
structure MatrixStrategy where
  failFast : Bool
  os : List String
  pythonVersion : List String
  torchVersion : List String
deriving DecidableEq

/-- A workflow job: the runner label, the `needs` list and the step list. -/
structure Job where
  runsOn : String
  needs : List String
  strategy : Option MatrixStrategy
  steps : List WorkflowStep
deriving DecidableEq

/-- The matrix of the `multitest` job:
`os: [ubuntu-latest, windows-latest]`, `python-version: ["3.7", "3.9",]`,
`torch-version: ["1.8.0", "1.12.0",]`, `fail-fast: false`. -/
def multitestMatrix : MatrixStrategy :=
  { failFast := false
    os := ["ubuntu-latest", "windows-latest"]
    pythonVersion := ["3.7", "3.9"]
    torchVersion := ["1.8.0", "1.12.0"] }

/-- The concrete matrix entries a strategy expands to: the cartesian product
of the three axes, in row-major order. -/
def matrixEntries (m : MatrixStrategy) : List (String × String × String) :=
  m.os.flatMap fun o =>
    m.pythonVersion.flatMap fun p =>
      m.torchVersion.map fun t => (o, p, t)

/-- The `multitest` job.  Each matrix entry runs the same four steps:
checkout, interpreter setup, dependency installation, pytest. -/
def multitest : Job :=
  { runsOn := "$\x7b\x7b matrix.os \x7d\x7d"
    needs := []
    strategy := some multitestMatrix
    steps :=
      [ { action := StepAction.checkout 2, continueOnError := false },
        { action := StepAction.setupPython "$\x7b\x7b matrix.python-version \x7d\x7d",
          continueOnError := false },
        { action := StepAction.runScript "Install requirements"
            ["pip install torch~=$\x7b\x7b matrix.torch-version \x7d\x7d torchvision",
             "pip install .",
             "pip install -r tests/requirements.txt"],
          continueOnError := false },
        { action := StepAction.runScript "Test with pytest" ["pytest tests"],
          continueOnError := false } ] }

/-- The `documentation` job (`needs: multitest`). -/
def documentation : Job :=
  { runsOn := "ubuntu-latest"
    needs := ["multitest"]
    strategy := none
    steps :=
      [ { action := StepAction.checkout 3, continueOnError := false },
        { action := StepAction.setupPython "3.8", continueOnError := false },
        { action := StepAction.runScript "Install dependencies"
            ["pip install .", "pip install -r docs/requirements.txt"],
          continueOnError := false },
        { action := StepAction.runScript "Build documentation"
            ["cd docs && make clean && make html"],
          continueOnError := false } ] }

/-- The `build-and-publish` job (`needs: documentation`). -/
def buildAndPublish : Job :=
  { runsOn := "ubuntu-latest"
    needs := ["documentation"]
    strategy := none
    steps :=
      [ { action := StepAction.checkout 3, continueOnError := false },
        { action := StepAction.setupPython "3.8", continueOnError := false },
        { action := StepAction.runScript "Install build packages"
            ["pip install wheel pbr setuptools"],
          continueOnError := false },
        { action := StepAction.runScript "Build a binary wheel and a source tarball"
            ["python setup.py sdist bdist_wheel"],
          continueOnError := false },
        { action := StepAction.publishPyPI true, continueOnError := false } ] }

/-- All jobs of the workflow, keyed by their YAML names. -/
def ciJobs : List (String × Job) :=
  [("multitest", multitest),
   ("documentation", documentation),
   ("build-and-publish", buildAndPublish)]

/-- GitHub `needs` semantics: in a workflow run, a job starts only once
every job named in its `needs` list has succeeded. -/
def jobCanRun (succeeded : List String) (j : Job) : Prop :=
  ∀ n ∈ j.needs, n ∈ succeeded

instance (s : List String) (j : Job) : Decidable (jobCanRun s j) :=
  List.decidableBAll _ _

/-- Whether a step's script issues the given shell command. -/
def stepRuns (s : WorkflowStep) (cmd : String) : Bool :=
  match s.action with
  | StepAction.runScript _ cmds => cmds.contains cmd
  | _ => false

/-! ## `count_correct` (`LeNet_5_EngChinese.ipynb`)

```python
def count_correct(output, target):
    _, predicted = torch.max(output, 1)
    acc = (predicted == target).sum().float()
    return acc.cpu().numpy()
```

`output` is a `b × C` matrix, modelled as the list of its `b` rows; `target`
a vector of `b` class indices.  `torch.max(output, 1)` returns, per row, the
maximum and the index of its first occurrence. -/

/-- The maximum entry of a row (the `values` part of `torch.max(·, 1)`). -/
def rowMax : List ℚ → ℚ
  | [] => 0
  | [x] => x
  | x :: y :: ys => max x (rowMax (y :: ys))

/-- The index of the first occurrence of the row maximum (the `indices` part
of `torch.max(·, 1)`): index `0` wins unless a strictly larger entry occurs
later in the row. -/
def argmaxFirst : List ℚ → ℕ
  | [] => 0
  | [_] => 0
  | x :: y :: ys => if x < rowMax (y :: ys) then argmaxFirst (y :: ys) + 1 else 0

/-- `count_correct`: the elementwise comparison `predicted == target` summed
over the batch. -/
def count_correct (output : List (List ℚ)) (target : List ℕ) : ℕ :=
  match output, target with
  | o :: os, t :: ts => (if argmaxFirst o = t then 1 else 0) + count_correct os ts
  | _, _ => 0

/-- Specification-side predicate: `k` is a valid column index of `row`
attaining its maximum. -/
def attainsRowMax (row : List ℚ) (k : ℕ) : Prop :=
  k < row.length ∧ ∀ j, j < row.length → row.getD j 0 ≤ row.getD k 0

instance (row : List ℚ) (k : ℕ) : Decidable (attainsRowMax row k) := by
  unfold attainsRowMax; infer_instance

/-- Specification-side predicate: `k` is the smallest column index attaining
the maximum of `row`. -/
def isFirstArgmax (row : List ℚ) (k : ℕ) : Prop :=
  attainsRowMax row k ∧ ∀ j, j < k → ¬ attainsRowMax row j

instance (row : List ℚ) (k : ℕ) : Decidable (isFirstArgmax row k) := by
  unfold isFirstArgmax; infer_instance

/-! ## `tensor_tile` (`LeNet_5_EngChinese.ipynb`)

```python
def tensor_tile(a, dim, n_tile):
    init_dim = a.size(dim)
    repeat_idx = [1] * a.dim()
    repeat_idx[dim] = n_tile
    a = a.repeat(*(repeat_idx))
    order_index = torch.LongTensor(
        np.concatenate([init_dim * np.arange(n_tile) + i for i in range(init_dim)])
    )
    return torch.index_select(a, dim, order_index)
```

A tensor is modelled by the list of its slices along the dimension `dim`
being tiled (each slice, of type `α`, carries all the remaining dimensions
unchanged).  Under this view `a.repeat` with `repeat_idx[dim] = n_tile` and
all other factors `1` concatenates `n_tile` copies of the slice list, and
`torch.index_select(a, dim, idx)` picks the slices named by `idx`. -/

/-- `a.repeat(*repeat_idx)` restricted to the tiled dimension: slice `k` of
the result is slice `k % a.length` of the input. -/
def tensorRepeat {α : Type} (a : List α) (n : ℕ) : List α :=
  (List.replicate n a).flatten

/-- `np.concatenate([init_dim * np.arange(n_tile) + i for i in range(init_dim)])`. -/
def orderIndex (initDim nTile : ℕ) : List ℕ :=
  ((List.range initDim).map fun i =>
    (List.range nTile).map fun j => initDim * j + i).flatten

/-- `torch.index_select(a, dim, idx)`: the slices of `a` named by `idx` in
order (all indices used by `tensor_tile` are in bounds, so the default is
never consulted). -/
def indexSelect {α : Type} [Inhabited α] (a : List α) (idx : List ℕ) : List α :=
  idx.map fun k => a.getD k default

/-- `tensor_tile(a, dim, n_tile)` viewed along the tiled dimension. -/
def tensor_tile {α : Type} [Inhabited α] (a : List α) (nTile : ℕ) : List α :=
  indexSelect (tensorRepeat a nTile) (orderIndex a.length nTile)

/-! ## `snn_test` (`LeNet_5_EngChinese.ipynb`)

```python
def snn_test(model, n_dt=10, n_test=10000):
    ...
    n_correct = 0
    for i, (imgs, labels) in enumerate(tqdm(spiking_test_dataloader)):
        if i > n_test:
            break
        ...
        n_correct += count_correct(outputs.sum(0, keepdim=True), labels)
    snn_accuracy = n_correct / n_test * 100.0
    print("SNN test accuracy: %.2f" % (snn_accuracy))
    return snn_accuracy
```

The loop visits the samples of the (batch-size-1) data loader in order and
stops only once the running index `i` exceeds `n_test`, i.e. it processes
samples `0 … min(len - 1, n_test)`.  Per sample, `outputs.sum(0,
keepdim=True)` is the `1 × 10` row of output-spike counts, so the loop body
adds `count_correct` of one row against one label.  The network forward pass
itself lives in the external library; the accounting is parametrised by the
per-sample summed output rows and labels. -/

/-- The value of `n_correct` after the loop: `count_correct` accumulated over
the samples the loop actually visits (`i` from `0` while `i ≤ n_test`). -/
def snn_test_n_correct (outputs : List (List ℚ)) (labels : List ℕ)
    (nTest : ℕ) : ℕ :=
  count_correct (outputs.take (nTest + 1)) (labels.take (nTest + 1))

/-- The returned figure: `n_correct / n_test * 100.0`. -/
def snn_test_accuracy (outputs : List (List ℚ)) (labels : List ℕ)
    (nTest : ℕ) : ℚ :=
  (snn_test_n_correct outputs labels nTest : ℚ) / nTest * 100

/-! ## Execution traces of the two conversion tutorials

The notebooks are straight-line scripts; each trace lists the observable
top-level operations in the order the cells execute them (loops appear as a
single aggregated event; operation kinds not relevant to the flow are
recorded as `otherEvent`).  A `convertCall v` event records the single
variable `v` that the `from_model` result is bound to; an `snnEval v` event
records the variable through which the spiking model is run or reset. -/

/-- One observable top-level operation of a tutorial. -/
inductive TutEvent where
  | defineModel
  | trainStep
  | evalANN
  | convertCall (result : String)
  | snnEval (receiver : String)
  | plotCall
  | otherEvent
deriving DecidableEq

/-- `weight_transfer_mnist.ipynb`, cells in execution order. -/
def weightTransferTrace : List TutEvent :=
  [TutEvent.defineModel,                -- ann = nn.Sequential(...)
   TutEvent.otherEvent,                 -- class MNIST(datasets.MNIST) definition
   TutEvent.otherEvent,                 -- mnist_train / mnist_test and their loaders
   TutEvent.trainStep,                  -- two-epoch Adam training loop over train_loader
   TutEvent.evalANN,                    -- ANN accuracy loop over test_loader
   TutEvent.convertCall "sinabs_model", -- sinabs_model = from_model(ann, ...)
   TutEvent.otherEvent,                 -- display of sinabs_model.spiking_model
   TutEvent.otherEvent,                 -- spike_mnist_test and spike_test_loader
   TutEvent.snnEval "sinabs_model",     -- SNN accuracy loop: output = sinabs_model(data)
   TutEvent.otherEvent,                 -- img, label = spike_mnist_test[10]
   TutEvent.plotCall,                   -- plt.imshow(img.sum(0)[0])
   TutEvent.snnEval "sinabs_model",     -- snn_output = sinabs_model(img.to(device))
   TutEvent.plotCall]                   -- plt.pcolormesh(snn_output.T...)

/-- `LeNet_5_EngChinese.ipynb`: six definition cells followed by the two
execution cells; the body of `snn_test` (executed once) contributes the
conversion and the per-sample reset/forward events. -/
def leNetTrace : List TutEvent :=
  [TutEvent.otherEvent,        -- imports
   TutEvent.defineModel,       -- class LeNet5(nn.Module) definition
   TutEvent.otherEvent,        -- def prepare / def train / def count_correct,
                               -- def test / def tensor_tile / def snn_test
   TutEvent.otherEvent,        -- prepare(): datasets, loaders, globals
   TutEvent.defineModel,       -- classifier = LeNet5().to(device)
   TutEvent.trainStep,         -- train(classifier, n_epochs=2)
   TutEvent.evalANN,           -- ann_accuracy = test(classifier)
   TutEvent.convertCall "net", -- net = from_model(...) inside snn_test
   TutEvent.snnEval "net",     -- net.reset_states() each loop iteration
   TutEvent.snnEval "net"]     -- outputs = net.spiking_model(input_frames)

/-- The canonical rank of an event in the tutorial flow
define → train → evaluate → convert → evaluate SNN → plot
(`none` for events outside the flow). -/
def phaseRank : TutEvent → Option ℕ
  | TutEvent.defineModel => some 0
  | TutEvent.trainStep => some 1
  | TutEvent.evalANN => some 2
  | TutEvent.convertCall _ => some 3
  | TutEvent.snnEval _ => some 4
  | TutEvent.plotCall => some 5
  | TutEvent.otherEvent => none

/-- The position of the first event of phase `p` in a trace, if any. -/
def firstPhaseIdx (tr : List TutEvent) (p : ℕ) : Option ℕ :=
  tr.findIdx? fun e => phaseRank e == some p

/-- Whether the phases a trace enters are entered in canonical order: for
any two phases both present in the trace, the lower-ranked one starts first. -/
def phasesInCanonicalOrder (tr : List TutEvent) : Bool :=
  (List.range 6).all fun p =>
    (List.range 6).all fun q =>
      if p < q then
        match firstPhaseIdx tr p, firstPhaseIdx tr q with
        | some ip, some iq => decide (ip < iq)
        | _, _ => true
      else true

/-- Whether an event is a training step. -/
def isTrainEvent : TutEvent → Bool
  | TutEvent.trainStep => true
  | _ => false

/-- Whether an event is a `from_model` call. -/
def isConvertEvent : TutEvent → Bool
  | TutEvent.convertCall _ => true
  | _ => false

/-- Whether an event runs or resets the spiking model. -/
def isSnnEvalEvent : TutEvent → Bool
  | TutEvent.snnEval _ => true
  | _ => false

/-- The positions of the events of a trace satisfying `pred`. -/
def eventIndices (tr : List TutEvent) (pred : TutEvent → Bool) : List ℕ :=
  (tr.enum.filter fun p => pred p.2).map fun p => p.1

/-- Every training event precedes every conversion event. -/
def trainBeforeConvert (tr : List TutEvent) : Bool :=
  (eventIndices tr isTrainEvent).all fun i =>
    (eventIndices tr isConvertEvent).all fun j => decide (i < j)

/-- Every spiking-model use is preceded by some conversion event. -/
def snnEvalAfterConvert (tr : List TutEvent) : Bool :=
  (eventIndices tr isSnnEvalEvent).all fun i =>
    (eventIndices tr isConvertEvent).any fun j => decide (j < i)

/-- Every spiking-model use in the trace goes through the variable `v`. -/
def snnOpsThrough (tr : List TutEvent) (v : String) : Bool :=
  tr.all fun e =>
    match e with
    | TutEvent.snnEval r => r == v
    | _ => true

/-! ## Statement inventory of the supplied material

For the error-handling and concurrency claims, each file is summarised by
the list of the kinds of Python statements it contains (nested statements
included, in source order).  The inductive type deliberately has
constructors for the construct kinds whose absence is claimed
(`tryExcept`, `raiseStmt`, `asyncFuncDef`, `threadSpawn`), so that absence
is a checkable property of the transcription. -/

/-- Kinds of Python statements/constructs. -/
inductive PyConstruct where
  | importStmt (module : String)
  | classDef (name base : String)
  | funcDef (name : String)
  | asyncFuncDef (name : String)
  | propertyDef (name : String)
  | assign
  | augAssign
  | exprStmt
  | forLoop
  | whileLoop
  | withBlock
  | ifStmt
  | tryExcept
  | raiseStmt
  | returnStmt
  | breakStmt
  | globalDecl (names : List String)
  | threadSpawn
deriving DecidableEq

/-- Statement inventory of `weight_transfer_mnist.ipynb` (code cells in
order, nested statements included). -/
def weightTransferConstructs : List PyConstruct :=
  [ -- cell: ANN definition
   PyConstruct.importStmt "torch.nn", PyConstruct.assign,
   -- cell: custom dataset
   PyConstruct.importStmt "torch", PyConstruct.importStmt "torchvision",
   PyConstruct.classDef "MNIST" "datasets.MNIST",
   PyConstruct.funcDef "__init__", PyConstruct.exprStmt,
   PyConstruct.assign, PyConstruct.assign,
   PyConstruct.funcDef "__getitem__", PyConstruct.assign,
   PyConstruct.ifStmt, PyConstruct.assign, PyConstruct.returnStmt,
   -- cell: loaders
   PyConstruct.importStmt "torch.utils.data",
   PyConstruct.assign, PyConstruct.assign, PyConstruct.assign,
   PyConstruct.assign,
   -- cell: training loop
   PyConstruct.importStmt "tqdm.auto", PyConstruct.importStmt "torch",
   PyConstruct.importStmt "torch.nn.functional",
   PyConstruct.assign, PyConstruct.assign, PyConstruct.exprStmt,
   PyConstruct.assign, PyConstruct.assign,
   PyConstruct.forLoop, PyConstruct.forLoop,
   PyConstruct.assign, PyConstruct.assign, PyConstruct.exprStmt,
   PyConstruct.assign, PyConstruct.exprStmt, PyConstruct.exprStmt,
   -- cell: ANN evaluation
   PyConstruct.assign, PyConstruct.forLoop, PyConstruct.assign,
   PyConstruct.assign, PyConstruct.assign, PyConstruct.exprStmt,
   PyConstruct.assign, PyConstruct.exprStmt,
   -- cell: conversion
   PyConstruct.importStmt "sinabs.from_torch",
   PyConstruct.assign, PyConstruct.assign,
   -- cell: display of the spiking model
   PyConstruct.exprStmt,
   -- cell: spiking loaders
   PyConstruct.assign, PyConstruct.assign, PyConstruct.assign,
   PyConstruct.assign,
   -- cell: SNN evaluation loop
   PyConstruct.importStmt "sinabs.layers",
   PyConstruct.assign, PyConstruct.forLoop, PyConstruct.assign,
   PyConstruct.assign, PyConstruct.withBlock, PyConstruct.assign,
   PyConstruct.assign, PyConstruct.assign, PyConstruct.exprStmt,
   PyConstruct.ifStmt, PyConstruct.breakStmt,
   PyConstruct.assign, PyConstruct.exprStmt,
   -- cell: one sample
   PyConstruct.assign,
   -- cell: raster plot
   PyConstruct.importStmt "matplotlib.pyplot", PyConstruct.exprStmt,
   -- cell: forward pass on the sample
   PyConstruct.assign,
   -- cell: output plot
   PyConstruct.importStmt "numpy",
   PyConstruct.exprStmt, PyConstruct.exprStmt, PyConstruct.exprStmt,
   PyConstruct.exprStmt]

/-- Statement inventory of `LeNet_5_EngChinese.ipynb`. -/
def leNetConstructs : List PyConstruct :=
  [ -- cell: imports
   PyConstruct.importStmt "os", PyConstruct.importStmt "torch",
   PyConstruct.importStmt "torchvision", PyConstruct.importStmt "sinabs",
   PyConstruct.importStmt "sinabs.layers", PyConstruct.importStmt "torch.nn",
   PyConstruct.importStmt "torch.nn.functional",
   PyConstruct.importStmt "numpy", PyConstruct.importStmt "tqdm.auto",
   PyConstruct.importStmt "torch.utils.data",
   PyConstruct.importStmt "torchvision.datasets",
   PyConstruct.importStmt "sinabs.from_torch",
   -- cell: LeNet5
   PyConstruct.classDef "LeNet5" "nn.Module",
   PyConstruct.funcDef "__init__", PyConstruct.exprStmt, PyConstruct.assign,
   PyConstruct.funcDef "forward", PyConstruct.returnStmt,
   -- cell: prepare
   PyConstruct.funcDef "prepare",
   PyConstruct.globalDecl ["device", "train_dataloader", "test_dataloader",
     "spiking_test_dataloader", "input_image_size"],
   PyConstruct.assign, PyConstruct.exprStmt, PyConstruct.exprStmt,
   PyConstruct.ifStmt, PyConstruct.assign, PyConstruct.assign,
   PyConstruct.assign, PyConstruct.assign,
   PyConstruct.assign, PyConstruct.assign, PyConstruct.assign,
   PyConstruct.assign, PyConstruct.assign, PyConstruct.returnStmt,
   -- cell: train
   PyConstruct.funcDef "train",
   PyConstruct.assign, PyConstruct.assign, PyConstruct.assign,
   PyConstruct.forLoop, PyConstruct.forLoop,
   PyConstruct.exprStmt, PyConstruct.assign, PyConstruct.assign,
   PyConstruct.assign, PyConstruct.exprStmt, PyConstruct.exprStmt,
   PyConstruct.exprStmt, PyConstruct.returnStmt,
   -- cell: count_correct and test
   PyConstruct.funcDef "count_correct",
   PyConstruct.assign, PyConstruct.assign, PyConstruct.returnStmt,
   PyConstruct.funcDef "test",
   PyConstruct.withBlock, PyConstruct.exprStmt,
   PyConstruct.assign, PyConstruct.assign,
   PyConstruct.forLoop, PyConstruct.assign, PyConstruct.assign,
   PyConstruct.augAssign, PyConstruct.augAssign,
   PyConstruct.assign, PyConstruct.exprStmt, PyConstruct.returnStmt,
   -- cell: tensor_tile and snn_test
   PyConstruct.funcDef "tensor_tile",
   PyConstruct.assign, PyConstruct.assign, PyConstruct.assign,
   PyConstruct.assign, PyConstruct.assign, PyConstruct.returnStmt,
   PyConstruct.funcDef "snn_test",
   PyConstruct.assign, PyConstruct.withBlock, PyConstruct.exprStmt,
   PyConstruct.assign, PyConstruct.forLoop,
   PyConstruct.ifStmt, PyConstruct.breakStmt,
   PyConstruct.assign, PyConstruct.assign, PyConstruct.exprStmt,
   PyConstruct.assign, PyConstruct.augAssign,
   PyConstruct.assign, PyConstruct.exprStmt, PyConstruct.returnStmt,
   -- cell: ANN run
   PyConstruct.exprStmt, PyConstruct.assign, PyConstruct.exprStmt,
   PyConstruct.assign,
   -- cell: SNN run
   PyConstruct.assign]

/-- Statement inventory of the synops tutorial notebook. -/
def synopsConstructs : List PyConstruct :=
  [ -- cell: ANN
   PyConstruct.importStmt "torch", PyConstruct.importStmt "torch.nn",
   PyConstruct.importStmt "sinabs", PyConstruct.importStmt "sinabs.layers",
   PyConstruct.assign,
   -- cell: SynOpCounter on the ANN
   PyConstruct.assign, PyConstruct.assign, PyConstruct.assign,
   PyConstruct.exprStmt, PyConstruct.exprStmt,
   -- cell: SNN class
   PyConstruct.classDef "SNN" "nn.Sequential",
   PyConstruct.funcDef "__init__", PyConstruct.exprStmt,
   PyConstruct.propertyDef "spiking_layers", PyConstruct.returnStmt,
   PyConstruct.funcDef "reset_states", PyConstruct.forLoop,
   PyConstruct.exprStmt,
   PyConstruct.assign, PyConstruct.assign,
   -- cell: SNNSynOpCounter
   PyConstruct.assign, PyConstruct.exprStmt,
   PyConstruct.assign, PyConstruct.assign, PyConstruct.exprStmt,
   -- cell: per-layer synops
   PyConstruct.exprStmt,
   -- cell: synops loss
   PyConstruct.assign, PyConstruct.assign, PyConstruct.assign,
   PyConstruct.assign]

/-- The three statement inventories together. -/
def allConstructs : List PyConstruct :=
  weightTransferConstructs ++ leNetConstructs ++ synopsConstructs

/-- Whether `suffix` ends the string `s` (computed on the character
lists). -/
def strEndsWith (s suffix : String) : Bool :=
  List.isSuffixOf suffix.toList s.toList

/-- Whether a construct is a class definition whose base is an exception
class (which would make it a custom exception type). -/
def definesExceptionClass : PyConstruct → Bool
  | PyConstruct.classDef _ base =>
      base == "BaseException" ||
      strEndsWith base "Error" || strEndsWith base "Exception"
  | _ => false

/-- Whether a construct belongs to a threading / async / multiprocessing
facility. -/
def isConcurrencyConstruct : PyConstruct → Bool
  | PyConstruct.threadSpawn => true
  | PyConstruct.asyncFuncDef _ => true
  | PyConstruct.importStmt m =>
      m == "threading" || m == "asyncio" || m == "multiprocessing" ||
      m == "concurrent.futures"
  | _ => false

/-! ## Module-level globals of `LeNet_5_EngChinese.ipynb`

`prepare()` assigns the five module-level globals; `train`, `test` and
`snn_test` later read them.  The execution trace below lists those accesses
in the order the script performs them (a single sequential interpreter). -/

/-- A global-variable access event. -/
inductive GEvent where
  | writeG (names : List String)
  | readG (name : String)
deriving DecidableEq

/-- Global accesses of the LeNet script in execution order. -/
def leNetGlobalTrace : List GEvent :=
  [GEvent.writeG ["device", "train_dataloader", "test_dataloader",
     "spiking_test_dataloader", "input_image_size"],   -- prepare()
   GEvent.readG "device",                              -- LeNet5().to(device)
   GEvent.readG "device", GEvent.readG "train_dataloader",   -- train(...)
   GEvent.readG "device", GEvent.readG "test_dataloader",    -- test(...)
   GEvent.readG "device", GEvent.readG "input_image_size",   -- snn_test(...)
   GEvent.readG "spiking_test_dataloader"]

/-- Whether, scanning the trace left to right starting from the already
written names `written`, every read names a previously written global. -/
def readsAfterWrite (written : List String) : List GEvent → Bool
  | [] => true
  | GEvent.writeG ns :: rest => readsAfterWrite (ns ++ written) rest
  | GEvent.readG n :: rest => written.contains n && readsAfterWrite written rest

/-! ## Concrete instances used to witness the theorems below -/

/-- A concrete spiking dataset instance: constant mid-gray images, constant
target `7`, `is_spiking=True`, `time_window=2`. -/
def mnistWitnessDS : MNISTDataset :=
  { data := fun _ _ _ => 128
    targets := fun _ => 7
    is_spiking := true
    time_window := 2 }

/-- A concrete value for the `torch.rand` tensor (all entries `1/2`). -/
def mnistWitnessRand :
    Fin mnistWitnessDS.time_window → Fin 1 → Fin 28 → Fin 28 → ℚ :=
  fun _ _ _ _ => 1 / 2

/-! ## Theorems -/

/-- C4: for every instance of the synops tutorial's `SNN` class (i.e. for
every `batch_size`), reading the `spiking_layers` property raises
`AttributeError`, and hence so does every call to `reset_states()`: the
property iterates over `self.net.children()` while no attribute named
`net` is ever assigned on the `nn.Sequential` subclass. -/
theorem snn_spiking_layers_raises (batchSize : ℕ) :
    snn_spiking_layers batchSize = Except.error "AttributeError" ∧
    snn_reset_states batchSize = Except.error "AttributeError" :=
  ⟨rfl, rfl⟩

/-- C3 (code bug, evaluation at a failing input): `snn_test`'s loop breaks
only once the sample index `i` exceeds `n_test`, so it scores `n_test + 1`
samples while still dividing by `n_test`.  With a two-sample loader whose
outputs `[0, 1]` match the label `1` on both samples and `n_test = 1`, the
reported figure is `200`, exceeding the claimed upper bound `100`. -/
theorem snn_test_accuracy_overcount :
    snn_test_accuracy [[0, 1], [0, 1]] [1, 1] 1 = 200 ∧
    (100 : ℚ) < snn_test_accuracy [[0, 1], [0, 1]] [1, 1] 1 := by
  have h : snn_test_n_correct [[0, 1], [0, 1]] [1, 1] 1 = 2 := rfl
  constructor <;>
    rw [snn_test_accuracy, h] <;> norm_num

/-- C5: in each conversion tutorial the flow phases are entered in the
canonical order (model definition, ANN training, ANN evaluation,
`from_model` conversion, spiking-model evaluation, plotting — for the
phases the tutorial contains), no conversion event precedes any training
event, and no spiking-model use precedes the conversion. -/
theorem tutorial_flow_order :
    (phasesInCanonicalOrder weightTransferTrace = true ∧
     trainBeforeConvert weightTransferTrace = true ∧
     snnEvalAfterConvert weightTransferTrace = true) ∧
    (phasesInCanonicalOrder leNetTrace = true ∧
     trainBeforeConvert leNetTrace = true ∧
     snnEvalAfterConvert leNetTrace = true) := by
  decide

/-- C9: each conversion tutorial performs exactly one `from_model` call,
and every subsequent spiking operation (simulation, state reset,
evaluation) goes through the single object that call returned
(`sinabs_model` in the weight-transfer tutorial, `net` in the LeNet
tutorial), always after the conversion. -/
theorem single_from_model_call :
    weightTransferTrace.filter isConvertEvent =
      [TutEvent.convertCall "sinabs_model"] ∧
    snnOpsThrough weightTransferTrace "sinabs_model" = true ∧
    leNetTrace.filter isConvertEvent = [TutEvent.convertCall "net"] ∧
    snnOpsThrough leNetTrace "net" = true := by
  decide

/-- C8: no statement in the supplied material is a `try`/`except` or a
`raise`, no class definition derives from an exception class, there is no
`while` loop (hence no loop-based retry), every CI step runs with the
default `continue-on-error: false`, and the test suite runs through a
plain `pytest` step whose failure surfaces only as a non-zero exit
status. -/
theorem no_error_recovery :
    allConstructs.count PyConstruct.tryExcept = 0 ∧
    allConstructs.count PyConstruct.raiseStmt = 0 ∧
    allConstructs.countP definesExceptionClass = 0 ∧
    allConstructs.count PyConstruct.whileLoop = 0 ∧
    (ciJobs.all fun j => j.2.steps.all fun s => !s.continueOnError) = true ∧
    (multitest.steps.any fun s => stepRuns s "pytest tests") = true := by
  decide

/-- C10: the supplied scripts contain no threading, async or
multiprocessing construct (so execution is the interpreter's single
sequential thread), and in the LeNet script every read of a module-level
global by `train`, `test` or `snn_test` happens after `prepare()` has
written it, with no concurrent access anywhere. -/
theorem single_threaded_no_coordination :
    allConstructs.countP isConcurrencyConstruct = 0 ∧
    readsAfterWrite [] leNetGlobalTrace = true := by
  decide

/-- C2: the CI `multitest` job runs over the matrix of exactly the two
operating systems `ubuntu-latest`/`windows-latest`, the two interpreter
versions `3.7`/`3.9` and the two torch versions `1.8.0`/`1.12.0` (eight
entries); its step list installs the dependencies before running
`pytest`; the `documentation` job can run only once `multitest` has
succeeded, and `build-and-publish` builds the wheel/sdist and publishes to
PyPI only once `documentation` has succeeded. -/
theorem ci_workflow_spec :
    multitest.strategy = some multitestMatrix ∧
    multitestMatrix.os = ["ubuntu-latest", "windows-latest"] ∧
    multitestMatrix.pythonVersion = ["3.7", "3.9"] ∧
    multitestMatrix.torchVersion = ["1.8.0", "1.12.0"] ∧
    (matrixEntries multitestMatrix).length = 8 ∧
    (multitest.steps.any fun s => stepRuns s "pip install .") = true ∧
    (multitest.steps.any fun s => stepRuns s "pytest tests") = true ∧
    (multitest.steps.findIdx fun s => stepRuns s "pip install .") <
      (multitest.steps.findIdx fun s => stepRuns s "pytest tests") ∧
    documentation.needs = ["multitest"] ∧
    buildAndPublish.needs = ["documentation"] ∧
    (buildAndPublish.steps.any fun s =>
      stepRuns s "python setup.py sdist bdist_wheel") = true ∧
    (buildAndPublish.steps.any fun s =>
      s.action = StepAction.publishPyPI true) = true ∧
    (∀ s, jobCanRun s documentation → "multitest" ∈ s) ∧
    (∀ s, jobCanRun s buildAndPublish → "documentation" ∈ s) := by
  refine ⟨rfl, rfl, rfl, rfl, by decide, by decide, by decide, by decide,
    rfl, rfl, by decide, by decide, ?_, ?_⟩
  · intro s h
    exact h "multitest" (by decide)
  · intro s h
    exact h "documentation" (by decide)

/-- Witness for `ci_workflow_spec`: with the concrete succeeded-job list
`["multitest"]` the `documentation` job may run, and the theorem then
yields `"multitest"` among the succeeded jobs. -/
theorem ci_workflow_spec_witness :
    jobCanRun ["multitest"] documentation ∧
    "multitest" ∈ ["multitest"] := by
  have h := ci_workflow_spec
  exact ⟨by decide,
    h.2.2.2.2.2.2.2.2.2.2.2.2.1 ["multitest"] (by decide)⟩

/-- C1: `MNIST.__getitem__` with `is_spiking=True` and time window `T`
returns the pair of a `(T, 1, 28, 28)` raster (the shape is the index type
of `MNISTItem.raster`) whose every entry is exactly `0` or `1`, an entry
being `1` precisely when the corresponding uniform `torch.rand` draw falls
below the pixel's gray level divided by `255` (so the expected event rate
per timestep is proportional to the gray level); with `is_spiking=False`
it returns the `(1, 28, 28)` image whose entries are the gray levels
scaled into `[0, 1]` by division by `255`. -/
theorem mnist_getitem_spec (ds : MNISTDataset) (index : ℕ)
    (rand : Fin ds.time_window → Fin 1 → Fin 28 → Fin 28 → ℚ)
    (hdata : ∀ i j, ds.data index i j ≤ 255) :
    (ds.is_spiking = true →
      mnistGetitem ds index rand =
        (MNISTItem.raster (mnistRaster ds index rand), ds.targets index) ∧
      (∀ t c i j, mnistRaster ds index rand t c i j = 0 ∨
        mnistRaster ds index rand t c i j = 1) ∧
      (∀ t c i j, mnistRaster ds index rand t c i j = 1 ↔
        rand t c i j < (ds.data index i j : ℚ) / 255)) ∧
    (ds.is_spiking = false →
      mnistGetitem ds index rand =
        (MNISTItem.image (mnistImg ds index), ds.targets index) ∧
      ∀ c i j, 0 ≤ mnistImg ds index c i j ∧ mnistImg ds index c i j ≤ 1) := by
  constructor
  · intro hs
    refine ⟨by simp [mnistGetitem, hs], ?_, ?_⟩
    · intro t c i j
      by_cases h : rand t c i j < mnistImg ds index c i j
      · right; simp [mnistRaster, h]
      · left; simp [mnistRaster, h]
    · intro t c i j
      by_cases h : rand t c i j < (ds.data index i j : ℚ) / 255
      · simp [mnistRaster, mnistImg, h]
      · simp [mnistRaster, mnistImg, h]
  · intro hs
    refine ⟨by simp [mnistGetitem, hs], ?_⟩
    intro c i j
    constructor
    · unfold mnistImg
      positivity
    · unfold mnistImg
      rw [div_le_one (by norm_num)]
      exact_mod_cast hdata i j

/-- Witness for `mnist_getitem_spec`: the concrete dataset
`mnistWitnessDS` (spiking, time window 2, constant gray level 128) with
the constant random tensor `mnistWitnessRand`. -/
theorem mnist_getitem_spec_witness :
    (∀ i j, mnistWitnessDS.data 0 i j ≤ 255) ∧
    ((mnistWitnessDS.is_spiking = true →
      mnistGetitem mnistWitnessDS 0 mnistWitnessRand =
        (MNISTItem.raster (mnistRaster mnistWitnessDS 0 mnistWitnessRand),
          mnistWitnessDS.targets 0) ∧
      (∀ t c i j, mnistRaster mnistWitnessDS 0 mnistWitnessRand t c i j = 0 ∨
        mnistRaster mnistWitnessDS 0 mnistWitnessRand t c i j = 1) ∧
      (∀ t c i j, mnistRaster mnistWitnessDS 0 mnistWitnessRand t c i j = 1 ↔
        mnistWitnessRand t c i j < (mnistWitnessDS.data 0 i j : ℚ) / 255)) ∧
    (mnistWitnessDS.is_spiking = false →
      mnistGetitem mnistWitnessDS 0 mnistWitnessRand =
        (MNISTItem.image (mnistImg mnistWitnessDS 0),
          mnistWitnessDS.targets 0) ∧
      ∀ c i j, 0 ≤ mnistImg mnistWitnessDS 0 c i j ∧
        mnistImg mnistWitnessDS 0 c i j ≤ 1)) :=
  ⟨fun _ _ => by norm_num [mnistWitnessDS],
   mnist_getitem_spec mnistWitnessDS 0 mnistWitnessRand
     (fun _ _ => by norm_num [mnistWitnessDS])⟩

/-- Every entry of a row is bounded by `rowMax`. -/
theorem rowMax_ge (row : List ℚ) :
    ∀ j, j < row.length → row.getD j 0 ≤ rowMax row := by
  induction row with
  | nil => intro j hj; simp at hj
  | cons x xs ih =>
    cases xs with
    | nil =>
      intro j hj
      simp only [List.length_cons, List.length_nil, Nat.lt_succ_iff,
        Nat.le_zero] at hj
      subst hj
      simp [rowMax]
    | cons y ys =>
      intro j hj
      cases j with
      | zero =>
        simp only [List.getD_cons_zero, rowMax]
        exact le_max_left x (rowMax (y :: ys))
      | succ j =>
        have h1 : (y :: ys).getD j 0 ≤ rowMax (y :: ys) :=
          ih j (by simpa using Nat.lt_of_succ_lt_succ hj)
        have h2 : rowMax (y :: ys) ≤ rowMax (x :: y :: ys) := by
          simp only [rowMax]
          exact le_max_right x (rowMax (y :: ys))
        simpa [List.getD_cons_succ] using le_trans h1 h2

/-- `argmaxFirst` is a valid index of a nonempty row. -/
theorem argmaxFirst_lt_length (row : List ℚ) (h : row ≠ []) :
    argmaxFirst row < row.length := by
  induction row with
  | nil => exact absurd rfl h
  | cons x xs ih =>
    cases xs with
    | nil => simp [argmaxFirst]
    | cons y ys =>
      by_cases hx : x < rowMax (y :: ys)
      · have h1 : argmaxFirst (y :: ys) < (y :: ys).length := ih (by simp)
        simp only [argmaxFirst, if_pos hx]
        simp only [List.length_cons] at h1 ⊢
        omega
      · simp [argmaxFirst, hx]

/-- The entry of a nonempty row at `argmaxFirst` is the row maximum. -/
theorem getD_argmaxFirst (row : List ℚ) (h : row ≠ []) :
    row.getD (argmaxFirst row) 0 = rowMax row := by
  induction row with
  | nil => exact absurd rfl h
  | cons x xs ih =>
    cases xs with
    | nil => simp [argmaxFirst, rowMax]
    | cons y ys =>
      by_cases hx : x < rowMax (y :: ys)
      · have h1 : (y :: ys).getD (argmaxFirst (y :: ys)) 0 = rowMax (y :: ys) :=
          ih (by simp)
        simp only [argmaxFirst, if_pos hx, List.getD_cons_succ, rowMax]
        rw [h1, max_eq_right (le_of_lt hx)]
      · simp only [argmaxFirst, if_neg hx, List.getD_cons_zero, rowMax]
        rw [max_eq_left (not_lt.mp hx)]

/-- Entries strictly before `argmaxFirst` are strictly below the row
maximum. -/
theorem getD_lt_of_lt_argmaxFirst (row : List ℚ) :
    ∀ j, j < argmaxFirst row → row.getD j 0 < rowMax row := by
  induction row with
  | nil => intro j hj; simp [argmaxFirst] at hj
  | cons x xs ih =>
    cases xs with
    | nil => intro j hj; simp [argmaxFirst] at hj
    | cons y ys =>
      intro j hj
      by_cases hx : x < rowMax (y :: ys)
      · rw [argmaxFirst, if_pos hx] at hj
        have hmax : rowMax (x :: y :: ys) = rowMax (y :: ys) := by
          simp only [rowMax]
          exact max_eq_right (le_of_lt hx)
        cases j with
        | zero =>
          simpa [hmax] using hx
        | succ j =>
          have h1 : (y :: ys).getD j 0 < rowMax (y :: ys) :=
            ih j (Nat.lt_of_succ_lt_succ hj)
          simpa [List.getD_cons_succ, hmax] using h1
      · rw [argmaxFirst, if_neg hx] at hj
        exact absurd hj (Nat.not_lt_zero j)

/-- `argmaxFirst` computes the smallest index attaining the row maximum. -/
theorem isFirstArgmax_argmaxFirst (row : List ℚ) (h : row ≠ []) :
    isFirstArgmax row (argmaxFirst row) := by
  refine ⟨⟨argmaxFirst_lt_length row h, ?_⟩, ?_⟩
  · intro j hj
    rw [getD_argmaxFirst row h]
    exact rowMax_ge row j hj
  · intro j hj hatt
    have h1 : row.getD j 0 < rowMax row := getD_lt_of_lt_argmaxFirst row j hj
    have h2 : row.getD (argmaxFirst row) 0 ≤ row.getD j 0 :=
      hatt.2 (argmaxFirst row) (argmaxFirst_lt_length row h)
    rw [getD_argmaxFirst row h] at h2
    exact absurd h2 (not_le.mpr h1)

/-- The smallest index attaining the row maximum is unique. -/
theorem isFirstArgmax_unique (row : List ℚ) (k k' : ℕ)
    (h1 : isFirstArgmax row k) (h2 : isFirstArgmax row k') : k = k' := by
  rcases Nat.lt_trichotomy k k' with h | h | h
  · exact absurd h1.1 (h2.2 k h)
  · exact h
  · exact absurd h2.1 (h1.2 k' h)

/-- For a nonempty row, `argmaxFirst` characterises `isFirstArgmax`. -/
theorem isFirstArgmax_iff (row : List ℚ) (h : row ≠ []) (k : ℕ) :
    isFirstArgmax row k ↔ argmaxFirst row = k := by
  constructor
  · intro hk
    exact isFirstArgmax_unique row (argmaxFirst row) k
      (isFirstArgmax_argmaxFirst row h) hk
  · rintro rfl
    exact isFirstArgmax_argmaxFirst row h

/-- `count_correct` is bounded by the batch size. -/
theorem count_correct_le (output : List (List ℚ)) (target : List ℕ) :
    count_correct output target ≤ output.length := by
  induction output generalizing target with
  | nil => simp [count_correct]
  | cons o os ih =>
    cases target with
    | nil => simp [count_correct]
    | cons t ts =>
      have h1 := ih ts
      show (if argmaxFirst o = t then 1 else 0) + count_correct os ts ≤
        os.length + 1
      by_cases h : argmaxFirst o = t <;> simp [h] <;> omega

/-- `count_correct` counts exactly the rows whose first argmax index equals
the target label. -/
theorem count_correct_eq_sum (output : List (List ℚ)) (target : List ℕ)
    (ht : target.length = output.length)
    (hrow : ∀ row ∈ output, row ≠ []) :
    count_correct output target =
      (Finset.range output.length).sum (fun i =>
        if isFirstArgmax (output.getD i []) (target.getD i 0) then 1 else 0) := by
  induction output generalizing target with
  | nil => simp [count_correct]
  | cons o os ih =>
    cases target with
    | nil => simp at ht
    | cons t ts =>
      have hts : ts.length = os.length := by simpa using ht
      have ho : o ≠ [] := hrow o (by simp)
      have ihs := ih ts hts (fun r hr => hrow r (by simp [hr]))
      rw [List.length_cons, Finset.sum_range_succ']
      simp only [List.getD_cons_succ, List.getD_cons_zero]
      show (if argmaxFirst o = t then 1 else 0) + count_correct os ts = _
      rw [ihs, Nat.add_comm]
      congr 1
      by_cases h : isFirstArgmax o t
      · rw [if_pos h, if_pos ((isFirstArgmax_iff o ho t).mp h)]
      · rw [if_neg h, if_neg (fun he => h ((isFirstArgmax_iff o ho t).mpr he))]

/-- C7: for a `b`-row output matrix (rows nonempty) and a length-`b` target
vector, `count_correct` returns the number of row indices `i` for which the
smallest column index attaining the maximum of row `i` equals `target[i]`,
and the result always lies between `0` and `b`. -/
theorem count_correct_spec (output : List (List ℚ)) (target : List ℕ)
    (b : ℕ) (hb : output.length = b) (ht : target.length = b)
    (hrow : ∀ row ∈ output, row ≠ []) :
    count_correct output target =
      (Finset.range b).sum (fun i =>
        if isFirstArgmax (output.getD i []) (target.getD i 0) then 1 else 0) ∧
    count_correct output target ≤ b := by
  subst hb
  exact ⟨count_correct_eq_sum output target ht hrow,
    count_correct_le output target⟩

/-- Witness for `count_correct_spec`: the 2×3 output `[[1, 3, 2], [5, 5, 1]]`
against the targets `[1, 0]`. -/
theorem count_correct_spec_witness :
    ([[(1 : ℚ), 3, 2], [5, 5, 1]].length = 2) ∧
    (([1, 0] : List ℕ).length = 2) ∧
    (∀ row ∈ [[(1 : ℚ), 3, 2], [5, 5, 1]], row ≠ []) ∧
    (count_correct [[(1 : ℚ), 3, 2], [5, 5, 1]] [1, 0] =
      (Finset.range 2).sum (fun i =>
        if isFirstArgmax ([[(1 : ℚ), 3, 2], [5, 5, 1]].getD i [])
            (([1, 0] : List ℕ).getD i 0) then 1 else 0) ∧
     count_correct [[(1 : ℚ), 3, 2], [5, 5, 1]] [1, 0] ≤ 2) :=
  ⟨rfl, rfl, by simp,
    count_correct_spec [[(1 : ℚ), 3, 2], [5, 5, 1]] [1, 0] 2 rfl rfl (by simp)⟩

/-- Indexing into the flattening of a list of lists of uniform length
`len`: position `q * len + r` (with `r < len`) reads entry `r` of block
`q`. -/
theorem flatten_getElem? {α : Type} (L : List (List α)) (len q r : ℕ)
    (hlen : ∀ xs ∈ L, xs.length = len) (hr : r < len) :
    L.flatten[q * len + r]? = (L[q]?).bind fun xs => xs[r]? := by
  induction L generalizing q with
  | nil => simp
  | cons xs rest ih =>
    have hxs : xs.length = len := hlen xs (by simp)
    cases q with
    | zero =>
      rw [List.flatten_cons,
        List.getElem?_append_left (by omega : 0 * len + r < xs.length)]
      simp
    | succ q =>
      rw [List.flatten_cons,
        List.getElem?_append_right (by
          have : len ≤ (q + 1) * len + r := by
            calc len ≤ (q + 1) * len := Nat.le_mul_of_pos_left len (by omega)
            _ ≤ (q + 1) * len + r := Nat.le_add_right _ _
          omega)]
      have harith : (q + 1) * len + r - xs.length = q * len + r := by
        rw [hxs]
        have : (q + 1) * len = q * len + len := by ring
        omega
      rw [harith, ih q (fun ys hys => hlen ys (by simp [hys]))]
      simp

/-- `orderIndex m n` has length `m * n`. -/
theorem orderIndex_length (m n : ℕ) : (orderIndex m n).length = m * n := by
  unfold orderIndex
  rw [List.length_flatten, List.map_map]
  have h1 : (List.range m).map
      (List.length ∘ fun i => (List.range n).map fun j => m * j + i) =
      (List.range m).map fun _ => n := by
    apply List.map_congr_left
    intro a _
    simp
  rw [h1, List.map_const', List.sum_replicate, List.length_range,
    smul_eq_mul]

/-- Entry `i * n + j` of `orderIndex m n` is `m * j + i`. -/
theorem orderIndex_getElem? (m n i j : ℕ) (hi : i < m) (hj : j < n) :
    (orderIndex m n)[i * n + j]? = some (m * j + i) := by
  unfold orderIndex
  rw [flatten_getElem? _ n i j ?_ hj]
  · rw [List.getElem?_map, List.getElem?_range hi]
    simp [List.getElem?_map, List.getElem?_range hj]
  · intro xs hxs
    simp only [List.mem_map] at hxs
    obtain ⟨a, _, rfl⟩ := hxs
    simp

/-- Entry `m * j + i` of the `n`-fold repetition of a length-`m` list is
entry `i` of the list. -/
theorem tensorRepeat_getElem? {α : Type} (a : List α) (n i j : ℕ)
    (hi : i < a.length) (hj : j < n) :
    (tensorRepeat a n)[a.length * j + i]? = a[i]? := by
  unfold tensorRepeat
  rw [Nat.mul_comm a.length j,
    flatten_getElem? _ a.length j i (fun ys hys => List.eq_of_mem_replicate hys ▸ rfl) hi]
  rw [List.getElem?_replicate, if_pos hj]
  simp

/-- C6: for every slice list `a` (the tensor viewed along the tiled
dimension `d`, each slice carrying the other dimensions unchanged) and
every `n_tile = n ≥ 1`, `tensor_tile` returns a slice list of length
`m * n` (`m` the size of `a` along `d`) whose slice at position
`i * n + j` equals slice `i` of `a` (for `i < m`, `j < n`); in particular
for `m = 1` the result is `n` identical copies of the single slice. -/
theorem tensor_tile_spec {α : Type} [Inhabited α] (a : List α) (n : ℕ)
    (_hn : 1 ≤ n) :
    (tensor_tile a n).length = a.length * n ∧
    ∀ i j, i < a.length → j < n →
      (tensor_tile a n)[i * n + j]? = a[i]? := by
  refine ⟨?_, ?_⟩
  · unfold tensor_tile indexSelect
    rw [List.length_map, orderIndex_length]
  · intro i j hi hj
    unfold tensor_tile indexSelect
    rw [List.getElem?_map, orderIndex_getElem? a.length n i j hi hj]
    simp only [Option.map_some']
    rw [List.getD_eq_getElem?_getD, tensorRepeat_getElem? a n i j hi hj,
      List.getElem?_eq_getElem hi]
    rfl

/-- Witness for `tensor_tile_spec`: the two-slice list `[10, 20]` tiled
three times. -/
theorem tensor_tile_spec_witness :
    (1 ≤ 3) ∧
    ((tensor_tile ([10, 20] : List ℕ) 3).length =
      ([10, 20] : List ℕ).length * 3 ∧
     ∀ i j, i < ([10, 20] : List ℕ).length → j < 3 →
       (tensor_tile ([10, 20] : List ℕ) 3)[i * 3 + j]? =
         ([10, 20] : List ℕ)[i]?) :=
  ⟨by decide, tensor_tile_spec ([10, 20] : List ℕ) 3 (by decide)⟩

end Sinabs
